import Mathlib

/-
Verification of the buyer-risk assessment engine (src/api.py) against its
natural-language specification.  The Python code is shallowly embedded:
floats become rationals, dict-backed records become structures, exceptions
become an explicit error type threaded through `Except`, and the shared
mutable `self.REASONS` accumulator is modelled both as a threaded value and
as an explicit engine-instance state (`AssessorState`).
-/

/-- Python runtime errors that the engine can raise. -/
inductive PyError
  | zeroDivisionError
  | indexError
deriving DecidableEq, Repr

/-- The six named risk levels of `BuyerRiskAssessor.__init__`. -/
inductive RiskTier
  | noRisk
  | veryLow
  | low
  | medium
  | high
  | veryHigh
deriving DecidableEq, Repr

/-- `risk_order` from `_increase_risk` (line 381): the escalation ladder.
`noRisk` is deliberately absent. -/
def risk_order : List RiskTier :=
  [RiskTier.veryLow, RiskTier.low, RiskTier.medium, RiskTier.high, RiskTier.veryHigh]

/-- `risk_order.index(current_risk)` wrapped in try/except: `some i` when the
tier is in the ladder, `none` for the `ValueError` path. -/
def ladder_idx (t : RiskTier) : Option Nat :=
  risk_order.findIdx? (fun x => decide (x = t))

/-- `BuyerRiskAssessor._increase_risk` (lines 379-387). -/
def increase_risk (current : RiskTier) (levels : Nat) : RiskTier :=
  match ladder_idx current with
  | some i => risk_order.getD (min (i + levels) (risk_order.length - 1)) current
  | none => current

/-- The `CoSigner` pydantic model (lines 49-57). -/
structure CoSigner where
  CO_SIGNER_NAME_FROM_APS : String
  CO_SIGNER_NAME_FROM_ID : String
  CO_SIGNER_ADDRESS_FROM_APS : String
  CO_SIGNER_ADDRESS_LIST_FROM_LANDREGISTRY : List String
  CO_SIGNER_ALL_PROPERTIES_PURCHASE_PRICE_FROM_LANDREGISTRY : List ℚ
  CO_SIGNER_ALL_PROPERTIES_VALUE_FROM_AVM : List ℚ
  CO_SIGNER_ALL_PROPERTIES_TOTAL_DEBT_FROM_PURVIEW : List ℚ
  CO_SIGNER_ALL_PROPERTIES_EQUITY : List ℚ
deriving DecidableEq, Repr

/-- The `BuyerData` pydantic model (lines 59-84).  Floats are embedded as
rationals; `PURCHASER_NAME_FROM_HOUSESIGMA` is optional in the schema and
defaults to the empty string. -/
structure BuyerData where
  PURCHASER_NAME_FROM_APS : String
  PURCHASER_NAME_FROM_ID : String
  PURCHASER_NAME_FROM_HOUSESIGMA : String := ""
  PURCHASER_ADDRESS_FROM_APS : String
  PURCHASER_ADDRESS_FROM_ID : String
  PURCHASER_ADDRESS_LIST_FROM_LANDREGISTRY : List String
  PURCHASER_AGE_FROM_ID : ℤ
  PURCHASER_ALL_PROPERTIES_PURCHASE_PRICE_FROM_LANDREGISTRY : List ℚ
  PURCHASER_ALL_PROPERTIES_VALUE_FROM_AVM : List ℚ
  PURCHASER_ALL_PROPERTIES_TOTAL_DEBT_FROM_PURVIEW : List ℚ
  PURCHASER_ALL_PROPERTIES_EQUITY : List ℚ
  PURCHASER_DEPOSIT_PAID_FROM_APS : ℚ
  PURCHASER_ID_ISSUE_DATE : String
  PURCHASER_DRIVER_LICENSE_TYPE : String
  CO_SIGNER_LIST_FROM_APS : List CoSigner
  DISTANCE : ℚ
  PRIMARY_RESIDENCE_PURCHASE_PRICE_FROM_LANDREGISTRY : ℚ
  PRIMARY_RESIDENCE_VALUE_FROM_AVM : ℚ
  PRIMARY_RESIDENCE_TOTAL_DEBT_FROM_PURVIEW : ℚ
  PRIMARY_RESIDENCE_EQUITY : ℚ
  PRIMARY_RESIDENCE_TITLE_NAMES : List String
  PROPERTY_PRICE : ℚ
  OTHER_DEPOSIT_PAID_NAME_LIST_FROM_APS : List String
  MORTGAGE_APPROVAL : Bool
  MORTGAGE_APPROVAL_NAMES : List String
deriving DecidableEq, Repr

/-- Tokenizer for Python `str.split()` with no argument: accumulate the
current run of non-whitespace characters and emit completed tokens. -/
def pyWords : List Char → List Char → List String
  | [], cur => if cur = [] then [] else [String.mk cur.reverse]
  | c :: rest, cur =>
    if c.isWhitespace then
      (if cur = [] then pyWords rest [] else String.mk cur.reverse :: pyWords rest [])
    else pyWords rest (c :: cur)

/-- Python `str.split()` with no argument: whitespace-delimited tokens with
empty pieces dropped. -/
def pySplit (s : String) : List String := pyWords s.data []

/-- Python `lst[-1]`: last element, or `IndexError` on an empty list. -/
def pyLast (l : List String) : Except PyError String :=
  match l.getLast? with
  | none => Except.error PyError.indexError
  | some x => Except.ok x

/-- Python `a / b`: raises `ZeroDivisionError` when `b` is zero. -/
def pyDiv (a b : ℚ) : Except PyError ℚ :=
  if b = 0 then Except.error PyError.zeroDivisionError else Except.ok (a / b)

/-- `BuyerRiskAssessor._check_ownership` (lines 121-135). -/
def check_ownership (b : BuyerData) : Bool :=
  if b.PRIMARY_RESIDENCE_TITLE_NAMES ≠ [] then true
  else if b.PURCHASER_ADDRESS_LIST_FROM_LANDREGISTRY ≠ [] then true
  else b.CO_SIGNER_LIST_FROM_APS.any
    (fun c => !c.CO_SIGNER_ADDRESS_LIST_FROM_LANDREGISTRY.isEmpty)

/-- The known-agreement-parties list `[PURCHASER_NAME_FROM_APS] + co-signer
names` built at lines 343-344 and 351-352. -/
def aps_names (b : BuyerData) : List String :=
  b.PURCHASER_NAME_FROM_APS :: b.CO_SIGNER_LIST_FROM_APS.map
    (fun c => c.CO_SIGNER_NAME_FROM_APS)

/-- The generator inside `any(...)` of `_has_related_parties_not_on_aps`
(lines 341-346): for each title-holder name, take its last whitespace token
(raising `IndexError` on an empty name) and test the related-party condition,
short-circuiting on the first `True`. -/
def related_any (lastName : String) (known : List String) : List String → Except PyError Bool
  | [] => Except.ok false
  | n :: rest =>
    match pyLast (pySplit n) with
    | Except.error e => Except.error e
    | Except.ok ln =>
      if ln = lastName ∧ n ∉ known then Except.ok true
      else related_any lastName known rest

/-- `BuyerRiskAssessor._has_related_parties_not_on_aps` (lines 336-346).
`PURCHASER_NAME_FROM_APS.split()[-1]` raises `IndexError` when the agreement
name has no whitespace-delimited token. -/
def has_related_parties_not_on_aps (b : BuyerData) : Except PyError Bool :=
  match pyLast (pySplit b.PURCHASER_NAME_FROM_APS) with
  | Except.error e => Except.error e
  | Except.ok lastName =>
    related_any lastName (aps_names b) b.PRIMARY_RESIDENCE_TITLE_NAMES

/-- `BuyerRiskAssessor._is_missing_coowner_on_aps` (lines 348-353). -/
def is_missing_coowner_on_aps (b : BuyerData) : Bool :=
  b.PRIMARY_RESIDENCE_TITLE_NAMES.any (fun owner => decide (owner ∉ aps_names b))

/-- `BuyerRiskAssessor._has_different_addresses` (lines 355-358). -/
def has_different_addresses (b : BuyerData) : Bool :=
  decide (b.PURCHASER_ADDRESS_FROM_ID ≠ b.PURCHASER_ADDRESS_FROM_APS)

/-- `BuyerRiskAssessor._is_buyer_on_primary_residence_title` (lines 332-334). -/
def is_buyer_on_primary_residence_title (b : BuyerData) : Bool :=
  decide (b.PURCHASER_NAME_FROM_APS ∈ b.PRIMARY_RESIDENCE_TITLE_NAMES)

/-- `BuyerRiskAssessor._has_high_risk_overrides` (lines 304-330).  The Python
`if age and (...)` test treats an age of `0` as missing. -/
def has_high_risk_overrides (b : BuyerData) : Bool :=
  decide (b.DISTANCE > 75) ||
  decide (b.OTHER_DEPOSIT_PAID_NAME_LIST_FROM_APS.length ≠ 1 ∨
          b.PURCHASER_NAME_FROM_APS ∉ b.OTHER_DEPOSIT_PAID_NAME_LIST_FROM_APS) ||
  decide (b.MORTGAGE_APPROVAL_NAMES.length > 1 ∨
          b.PURCHASER_NAME_FROM_APS ∉ b.MORTGAGE_APPROVAL_NAMES) ||
  decide (b.PURCHASER_AGE_FROM_ID ≠ 0 ∧
          (b.PURCHASER_AGE_FROM_ID < 30 ∨ b.PURCHASER_AGE_FROM_ID > 60)) ||
  has_different_addresses b

/-- `deposit_pct` of `_assess_non_homeowner` (line 143): guarded by
`price > 0`, falling back to 0. -/
def non_owner_deposit_pct (b : BuyerData) : ℚ :=
  if b.PROPERTY_PRICE > 0
  then b.PURCHASER_DEPOSIT_PAID_FROM_APS / b.PROPERTY_PRICE * 100
  else 0

/-- The price-tier table of `_assess_non_homeowner` (lines 145-159). -/
def non_owner_table_tier (b : BuyerData) : RiskTier :=
  let price := b.PROPERTY_PRICE
  let pct := non_owner_deposit_pct b
  if price < 800000 then
    (if pct > 25 then RiskTier.low
     else if pct > 15 then RiskTier.medium
     else RiskTier.noRisk)
  else if 800000 ≤ price ∧ price ≤ 1000000 then
    (if pct > 20 then RiskTier.medium else RiskTier.noRisk)
  else if 1000000 < price ∧ price ≤ 1500000 then
    (if pct > 25 then RiskTier.medium else RiskTier.noRisk)
  else if price > 1500000 then
    (if pct > 25 then RiskTier.medium else RiskTier.noRisk)
  else RiskTier.noRisk

/-- `BuyerRiskAssessor._assess_non_homeowner` (lines 137-178).  Returns
(risk_level, actions); the related-party predicate can raise. -/
def assess_non_homeowner (b : BuyerData) : Except PyError (RiskTier × List String) :=
  let r1 := non_owner_table_tier b
  let r2 := if has_high_risk_overrides b then RiskTier.high else r1
  match has_related_parties_not_on_aps b with
  | Except.error e => Except.error e
  | Except.ok rel =>
    let r3 := if rel then
        (if b.PROPERTY_PRICE > 1000000
         then increase_risk (increase_risk r2 1) 2
         else increase_risk r2 1)
      else r2
    let relActs : List String := if rel then ["Add related parties to APS"] else []
    let youngActs : List String :=
      if b.PURCHASER_AGE_FROM_ID < 30 ∧ is_buyer_on_primary_residence_title b = false
      then ["Request to add co-signers"] else []
    Except.ok (r3, relActs ++ youngActs ++ ["Request 25% downpayment proof"])

/-- The home-value-to-price ratio rule of `_assess_homeowner` (lines 189-195). -/
def owner_value_tier (b : BuyerData) : RiskTier :=
  if b.PRIMARY_RESIDENCE_VALUE_FROM_AVM ≥ 0.75 * b.PROPERTY_PRICE then RiskTier.low
  else if 0.6 * b.PROPERTY_PRICE ≤ b.PRIMARY_RESIDENCE_VALUE_FROM_AVM ∧
          b.PRIMARY_RESIDENCE_VALUE_FROM_AVM < 0.75 * b.PROPERTY_PRICE then RiskTier.medium
  else RiskTier.high

/-- `equity_pct` of `_assess_homeowner` (line 187): guarded by `price > 0`. -/
def owner_equity_pct (b : BuyerData) : ℚ :=
  if b.PROPERTY_PRICE > 0
  then b.PRIMARY_RESIDENCE_EQUITY / b.PROPERTY_PRICE * 100
  else 0

/-- The equity rule of `_assess_homeowner` (lines 197-206), applied on top of
the value-ratio tier. -/
def owner_equity_tier (b : BuyerData) : RiskTier :=
  if owner_equity_pct b < 5 then RiskTier.veryHigh
  else if owner_equity_pct b < 15 then increase_risk (owner_value_tier b) 2
  else if owner_equity_pct b < 25 then increase_risk (owner_value_tier b) 1
  else owner_value_tier b

/-- The reasons appended by the equity rule of `_assess_homeowner`. -/
def owner_equity_reasons (b : BuyerData) : List String :=
  if owner_equity_pct b < 5 then ["Very low equity (<5%)"]
  else if owner_equity_pct b < 15 then ["Low equity (5-15%)"]
  else if owner_equity_pct b < 25 then ["Moderate equity (15-25%)"]
  else []

/-- `BuyerRiskAssessor._assess_homeowner` (lines 180-222).  Returns
(risk_level, actions, reasons appended to `self.REASONS`). -/
def assess_homeowner (b : BuyerData) : Except PyError (RiskTier × List String × List String) :=
  match has_related_parties_not_on_aps b with
  | Except.error e => Except.error e
  | Except.ok rel =>
    let r2 := owner_equity_tier b
    let r3 := if rel then increase_risk (increase_risk r2 1) 2 else r2
    let relReasons : List String :=
      if rel then ["Same last name different addresses."] else []
    let relActs : List String := if rel then ["Add related parties to APS"] else []
    let r4 := if is_missing_coowner_on_aps b then increase_risk r3 2 else r3
    let missReasons : List String :=
      if is_missing_coowner_on_aps b then ["Missing co-owner on APS"] else []
    Except.ok (r4, relActs ++ ["Verify property ownership and equity"],
               owner_equity_reasons b ++ relReasons ++ missReasons)

/-- One sequential check of `_apply_general_checks`: if the condition holds,
update the tier with `f` and append the reason list `L`. -/
def gstep (c : Prop) [Decidable c] (f : RiskTier → RiskTier) (L : List String)
    (s : RiskTier × List String) : RiskTier × List String :=
  if c then (f s.1, s.2 ++ L) else s

/-- General check 1 (lines 228-231): agreement name vs ID name. -/
def gc1 (b : BuyerData) (s : RiskTier × List String) : RiskTier × List String :=
  gstep (b.PURCHASER_NAME_FROM_APS ≠ b.PURCHASER_NAME_FROM_ID)
    (fun _ => RiskTier.veryHigh) ["Name mismatch between ID and APS"] s

/-- General check 2 (lines 233-236): agreement name vs listing-service name. -/
def gc2 (b : BuyerData) (s : RiskTier × List String) : RiskTier × List String :=
  gstep (b.PURCHASER_NAME_FROM_APS ≠ b.PURCHASER_NAME_FROM_HOUSESIGMA)
    (fun _ => RiskTier.veryHigh) ["Name mismatch between APS and HOUSESIGMA"] s

/-- General check 3 (lines 238-241): ID name vs listing-service name. -/
def gc3 (b : BuyerData) (s : RiskTier × List String) : RiskTier × List String :=
  gstep (b.PURCHASER_NAME_FROM_ID ≠ b.PURCHASER_NAME_FROM_HOUSESIGMA)
    (fun _ => RiskTier.veryHigh) ["Name mismatch between ID and HOUSESIGMA"] s

/-- General check 4 (lines 244-247): ID address vs agreement address. -/
def gc4 (b : BuyerData) (s : RiskTier × List String) : RiskTier × List String :=
  gstep (b.PURCHASER_ADDRESS_FROM_ID ≠ b.PURCHASER_ADDRESS_FROM_APS)
    (fun _ => RiskTier.veryHigh) ["Address mismatch between ID and APS"] s

/-- General check 5 (lines 249-256): agreement address in the land-registry
address list, with the reason depending on whether the list is empty. -/
def gc5 (b : BuyerData) (s : RiskTier × List String) : RiskTier × List String :=
  gstep (b.PURCHASER_ADDRESS_FROM_APS ∉ b.PURCHASER_ADDRESS_LIST_FROM_LANDREGISTRY)
    (fun _ => RiskTier.veryHigh)
    [if b.PURCHASER_ADDRESS_LIST_FROM_LANDREGISTRY ≠ []
     then "Address mismatch APS and LAND REGISTRY"
     else "Address in APS not found in LAND REGISTRY - empty"] s

/-- General check 6 (lines 258-261): distance. -/
def gc6 (b : BuyerData) (s : RiskTier × List String) : RiskTier × List String :=
  gstep (b.DISTANCE > 75) (fun r => increase_risk r 1) ["Long distance (>75km)"] s

/-- General check 7 (lines 263-268): deposit paid by others. -/
def gc7 (b : BuyerData) (s : RiskTier × List String) : RiskTier × List String :=
  gstep (b.OTHER_DEPOSIT_PAID_NAME_LIST_FROM_APS.length ≠ 1 ∨
         b.PURCHASER_NAME_FROM_APS ∉ b.OTHER_DEPOSIT_PAID_NAME_LIST_FROM_APS)
    (fun _ => RiskTier.veryHigh) ["Deposit paid by others"] s

/-- General check 8 (lines 270-274): mortgage approval parties. -/
def gc8 (b : BuyerData) (s : RiskTier × List String) : RiskTier × List String :=
  gstep (b.MORTGAGE_APPROVAL_NAMES.length > 1 ∨
         b.PURCHASER_NAME_FROM_APS ∉ b.MORTGAGE_APPROVAL_NAMES)
    (fun r => increase_risk r 1) ["Multiple mortgage parties"] s

/-- General check 9 (lines 276-280): age; `if age and (...)` treats age 0 as
missing, and the reason interpolates the age. -/
def gc9 (b : BuyerData) (s : RiskTier × List String) : RiskTier × List String :=
  gstep (b.PURCHASER_AGE_FROM_ID ≠ 0 ∧
         (b.PURCHASER_AGE_FROM_ID < 30 ∨ b.PURCHASER_AGE_FROM_ID > 60))
    (fun r => increase_risk r 1)
    ["Age risk (" ++ toString b.PURCHASER_AGE_FROM_ID ++ " years)"] s

/-- General check 10 (lines 282-285): multiple properties. -/
def gc10 (b : BuyerData) (s : RiskTier × List String) : RiskTier × List String :=
  gstep (b.PURCHASER_ALL_PROPERTIES_VALUE_FROM_AVM.length > 1)
    (fun r => increase_risk r 1) ["Multiple property ownership"] s

/-- `BuyerRiskAssessor._apply_general_checks` (lines 224-302): the ten checks
in program order.  Returns the final tier together with the reasons this pass
appends to `self.REASONS`. -/
def apply_general_checks (b : BuyerData) (current_risk : RiskTier) : RiskTier × List String :=
  gc10 b (gc9 b (gc8 b (gc7 b (gc6 b (gc5 b (gc4 b (gc3 b (gc2 b (gc1 b (current_risk, []))))))))))

/-- Round to the nearest integer with ties to the even integer, as CPython
rounds when formatting floats (an exact tie arises exactly for the dyadic
values a binary double can carry). -/
def roundHalfEven (q : ℚ) : ℤ :=
  let f := ⌊q⌋
  if q - f < 1 / 2 then f
  else if q - f > 1 / 2 then f + 1
  else if f % 2 = 0 then f else f + 1

/-- Python `f"{q:.1%}"`: the value as a percentage rounded to one decimal
digit, ties to even. -/
def fmtPct1 (q : ℚ) : String :=
  let t : ℤ := roundHalfEven (q * 1000)
  toString (t / 10) ++ "." ++ toString (t % 10) ++ "%"

/-- Decimal digits of a fractional part `r` (0 ≤ r < 1), most significant
first, stopping when the expansion terminates; `fuel` bounds the length at
the 17 significant digits a binary double can need. -/
def fracDigits : Nat → ℚ → List Char
  | 0, _ => []
  | fuel + 1, r =>
    if r = 0 then []
    else
      let d : ℤ := ⌊r * 10⌋
      Char.ofNat (48 + d.toNat) :: fracDigits fuel (r * 10 - d)

/-- Python `str(float(q))` in the plain (non-exponent) range: sign, integer
part, and at least one decimal digit, so integers render as "x.0".  Python
prints the shortest decimal that round-trips the nearest binary double; on
the decimally-terminating values the engine formats, that is the exact
expansion produced here. -/
def pyFloatStr (q : ℚ) : String :=
  let sign := if q < 0 then "-" else ""
  let a := |q|
  let ip : ℤ := ⌊a⌋
  let ds := fracDigits 17 (a - ip)
  sign ++ toString ip ++ "." ++ (if ds = [] then "0" else String.mk ds)

/-- The `f"Home value to price ratio: {home_value/price:.1%}"` factor of
`_get_risk_factors` (lines 400-402): the division is not guarded. -/
def home_value_factor (b : BuyerData) : Except PyError String :=
  match pyDiv b.PRIMARY_RESIDENCE_VALUE_FROM_AVM b.PROPERTY_PRICE with
  | Except.error e => Except.error e
  | Except.ok q => Except.ok ("Home value to price ratio: " ++ fmtPct1 q)

/-- The `f"Deposit:{float(deposit_pct)}"` factor of `_get_risk_factors`
(lines 404-406): the division is not guarded either, and the percentage is
interpolated through `str(float)`. -/
def deposit_factor (b : BuyerData) : Except PyError String :=
  match pyDiv b.PURCHASER_DEPOSIT_PAID_FROM_APS b.PROPERTY_PRICE with
  | Except.error e => Except.error e
  | Except.ok d => Except.ok ("Deposit:" ++ pyFloatStr (d * 100))

/-- `BuyerRiskAssessor._get_risk_factors` (lines 389-417). -/
def get_risk_factors (b : BuyerData) : Except PyError (List String) :=
  let f1 := if check_ownership b then "Existing property owner" else "First-time homebuyer"
  match home_value_factor b with
  | Except.error e => Except.error e
  | Except.ok f2 =>
    match deposit_factor b with
    | Except.error e => Except.error e
    | Except.ok f3 =>
      let f4 : List String :=
        if b.DISTANCE > 75
        then ["Long distance (" ++ pyFloatStr b.DISTANCE ++ "km)"] else []
      let f5 : List String :=
        if b.PURCHASER_AGE_FROM_ID ≠ 0 ∧
           (b.PURCHASER_AGE_FROM_ID < 30 ∨ b.PURCHASER_AGE_FROM_ID > 60)
        then ["Age risk factor (" ++ toString b.PURCHASER_AGE_FROM_ID ++ " years)"] else []
      Except.ok ([f1, f2, f3] ++ f4 ++ f5)

/-- The verdict dict returned by `assess_buyer_risk` (lines 113-118). -/
structure Verdict where
  risk_level : RiskTier
  suggested_actions : List String
  risk_factors : List String
  reasons : List String
deriving DecidableEq, Repr

/-- `BuyerRiskAssessor.assess_buyer_risk` (lines 96-118), with the reasons
threaded as a value: the non-owner branch appends no reasons. -/
def assess_buyer_risk (b : BuyerData) : Except PyError Verdict :=
  match (if check_ownership b then assess_homeowner b
         else Except.map (fun p => (p.1, p.2, ([] : List String))) (assess_non_homeowner b)) with
  | Except.error e => Except.error e
  | Except.ok (risk0, actions, branch_reasons) =>
    let g := apply_general_checks b risk0
    match get_risk_factors b with
    | Except.error e => Except.error e
    | Except.ok factors =>
      Except.ok ⟨g.1, actions, factors, branch_reasons ++ g.2⟩

/-- The long-lived engine instance: its only mutable field is `self.REASONS`
(line 94). -/
structure AssessorState where
  REASONS : List String
deriving DecidableEq, Repr

/-- `assess_buyer_risk` as the source actually executes it on the shared
`BuyerRiskAssessor` instance: `self.REASONS` is reset to `[]` at line 100
(discarding whatever a previous call left in `s`), the branch and the
general pass append to it, and the verdict's `reasons` entry reads the very
same instance field. -/
def assess_buyer_risk_instance (s : AssessorState) (b : BuyerData) :
    Except PyError (AssessorState × Verdict) :=
  match s with
  | _ =>
    match (if check_ownership b then assess_homeowner b
           else Except.map (fun p => (p.1, p.2, ([] : List String))) (assess_non_homeowner b)) with
    | Except.error e => Except.error e
    | Except.ok (risk0, actions, branch_reasons) =>
      let g := apply_general_checks b risk0
      match get_risk_factors b with
      | Except.error e => Except.error e
      | Except.ok factors =>
        Except.ok (⟨branch_reasons ++ g.2⟩,
                   ⟨g.1, actions, factors, branch_reasons ++ g.2⟩)

/-- Modelled from the spec: the non-owner price/deposit table of section 4.2
as the claim states it, for comparison with `non_owner_table_tier`. -/
def specNonOwnerTier (price deposit : ℚ) : RiskTier :=
  let pct := if price > 0 then deposit / price * 100 else 0
  if price < 800000 then
    (if pct > 25 then RiskTier.low
     else if 15 < pct ∧ pct ≤ 25 then RiskTier.medium
     else RiskTier.noRisk)
  else if 800000 ≤ price ∧ price ≤ 1000000 then
    (if pct > 20 then RiskTier.medium else RiskTier.noRisk)
  else if (1000000 < price ∧ price ≤ 1500000) ∨ price > 1500000 then
    (if pct > 25 then RiskTier.medium else RiskTier.noRisk)
  else RiskTier.noRisk

/-- Modelled from the spec: the owner-branch tier of section 4.3 as the claim
states it (value-ratio rule, then equity rule with pct 0 when price ≤ 0). -/
def specOwnerTier (price homeValue equity : ℚ) : RiskTier :=
  let base := if homeValue ≥ 0.75 * price then RiskTier.low
              else if 0.6 * price ≤ homeValue ∧ homeValue < 0.75 * price then RiskTier.medium
              else RiskTier.high
  let epct := if price ≤ 0 then 0 else equity / price * 100
  if epct < 5 then RiskTier.veryHigh
  else if epct < 15 then increase_risk base 2
  else if epct < 25 then increase_risk base 1
  else base

/-- Modelled from the spec: the equity-rule reasons of section 4.3. -/
def specOwnerReasons (price equity : ℚ) : List String :=
  let epct := if price ≤ 0 then 0 else equity / price * 100
  if epct < 5 then ["Very low equity (<5%)"]
  else if epct < 15 then ["Low equity (5-15%)"]
  else if epct < 25 then ["Moderate equity (15-25%)"]
  else []

/-- A consistent baseline profile used to build concrete test inputs. -/
def bBase : BuyerData where
  PURCHASER_NAME_FROM_APS := "John Smith"
  PURCHASER_NAME_FROM_ID := "John Smith"
  PURCHASER_NAME_FROM_HOUSESIGMA := "John Smith"
  PURCHASER_ADDRESS_FROM_APS := "123 Main St"
  PURCHASER_ADDRESS_FROM_ID := "123 Main St"
  PURCHASER_ADDRESS_LIST_FROM_LANDREGISTRY := ["123 Main St"]
  PURCHASER_AGE_FROM_ID := 40
  PURCHASER_ALL_PROPERTIES_PURCHASE_PRICE_FROM_LANDREGISTRY := []
  PURCHASER_ALL_PROPERTIES_VALUE_FROM_AVM := []
  PURCHASER_ALL_PROPERTIES_TOTAL_DEBT_FROM_PURVIEW := []
  PURCHASER_ALL_PROPERTIES_EQUITY := []
  PURCHASER_DEPOSIT_PAID_FROM_APS := 200000
  PURCHASER_ID_ISSUE_DATE := "2023-01-01"
  PURCHASER_DRIVER_LICENSE_TYPE := "Ontario"
  CO_SIGNER_LIST_FROM_APS := []
  DISTANCE := 50
  PRIMARY_RESIDENCE_PURCHASE_PRICE_FROM_LANDREGISTRY := 500000
  PRIMARY_RESIDENCE_VALUE_FROM_AVM := 650000
  PRIMARY_RESIDENCE_TOTAL_DEBT_FROM_PURVIEW := 300000
  PRIMARY_RESIDENCE_EQUITY := 50000
  PRIMARY_RESIDENCE_TITLE_NAMES := ["John Smith"]
  PROPERTY_PRICE := 800000
  OTHER_DEPOSIT_PAID_NAME_LIST_FROM_APS := ["John Smith"]
  MORTGAGE_APPROVAL := true
  MORTGAGE_APPROVAL_NAMES := ["John Smith"]

/-- Owner profile: price 800000, home value 650000, equity 50000, no
related-party or missing-co-owner trigger, all general checks clean. -/
def bOwn : BuyerData := bBase

/-- Non-owner profile: price 700000, deposit 200000, no override and no
related-party trigger. -/
def bNW : BuyerData :=
  { bBase with PRIMARY_RESIDENCE_TITLE_NAMES := [],
               PURCHASER_ADDRESS_LIST_FROM_LANDREGISTRY := [],
               PROPERTY_PRICE := 700000 }

/-- Owner profile with a title holder who shares the buyer's last name but is
not on the agreement. -/
def bRel : BuyerData :=
  { bBase with PRIMARY_RESIDENCE_TITLE_NAMES := ["Bob Smith"] }

/-- Profile with a name mismatch between agreement and ID. -/
def bMis : BuyerData :=
  { bBase with PURCHASER_NAME_FROM_ID := "Jon Smith" }

/-- Profile leaving the optional listing-service name at its default. -/
def bHS : BuyerData :=
  { bBase with PURCHASER_NAME_FROM_HOUSESIGMA := "" }

/-- Profile with an empty agreement name. -/
def bEmpty : BuyerData :=
  { bBase with PURCHASER_NAME_FROM_APS := "" }

/-- Profile whose subject property price is exactly 0. -/
def bZero : BuyerData :=
  { bBase with PROPERTY_PRICE := 0 }

/-- Profile aged 25 (young-buyer general check). -/
def bYoung : BuyerData :=
  { bBase with PURCHASER_AGE_FROM_ID := 25 }

/-- For a tier in the ladder, `increase_risk` returns the saturated lookup,
and the index is at most 4. -/
lemma increase_risk_ladder (t : RiskTier) (i : Nat) (h : ladder_idx t = some i)
    (n : Nat) :
    increase_risk t n = risk_order.getD (min (i + n) 4) t ∧ i ≤ 4 := by
  cases t
  case noRisk => exact Option.noConfusion h
  all_goals exact (by cases Option.some.inj h; exact ⟨rfl, by omega⟩)

/-- Ladder lookup at a valid index lands back at that index. -/
lemma ladder_idx_getD (k : Nat) (hk : k ≤ 4) (d : RiskTier) :
    ladder_idx (risk_order.getD k d) = some k := by
  interval_cases k <;> rfl

/-- C1: for every ladder tier and step count n, `escalate(tier, n)` returns
the tier at index `min(index + n, last index)`; it is monotone non-decreasing
in the ladder order, saturates at VeryHigh, and is the identity on NoRisk. -/
theorem escalate_ladder_spec :
    (∀ t i, ladder_idx t = some i →
      ∀ n, increase_risk t n = risk_order.getD (min (i + n) 4) t)
    ∧ (∀ t i n j, ladder_idx t = some i →
        ladder_idx (increase_risk t n) = some j → i ≤ j)
    ∧ (∀ t n, t ≠ RiskTier.noRisk → 4 ≤ n → increase_risk t n = RiskTier.veryHigh)
    ∧ (∀ n, increase_risk RiskTier.noRisk n = RiskTier.noRisk) := by
  refine ⟨fun t i h n => (increase_risk_ladder t i h n).1, ?_, ?_, fun n => rfl⟩
  · intro t i n j ht hj
    obtain ⟨he, hi⟩ := increase_risk_ladder t i ht n
    rw [he, ladder_idx_getD _ (Nat.min_le_right _ _)] at hj
    cases Option.some.inj hj
    omega
  · intro t n hne h4
    cases t
    case noRisk => exact absurd rfl hne
    case veryLow =>
      rw [(increase_risk_ladder RiskTier.veryLow 0 rfl n).1,
        show min (0 + n) 4 = 4 from by omega]
      rfl
    case low =>
      rw [(increase_risk_ladder RiskTier.low 1 rfl n).1,
        show min (1 + n) 4 = 4 from by omega]
      rfl
    case medium =>
      rw [(increase_risk_ladder RiskTier.medium 2 rfl n).1,
        show min (2 + n) 4 = 4 from by omega]
      rfl
    case high =>
      rw [(increase_risk_ladder RiskTier.high 3 rfl n).1,
        show min (3 + n) 4 = 4 from by omega]
      rfl
    case veryHigh =>
      rw [(increase_risk_ladder RiskTier.veryHigh 4 rfl n).1,
        show min (4 + n) 4 = 4 from by omega]
      rfl

/-- Witness for C1 at concrete inputs. -/
theorem escalate_ladder_spec_witness :
    increase_risk RiskTier.low 2 = RiskTier.high ∧
    increase_risk RiskTier.noRisk 7 = RiskTier.noRisk := by
  constructor
  · rw [escalate_ladder_spec.1 RiskTier.low 1 rfl 2]
    rfl
  · exact escalate_ladder_spec.2.2.2 7

/-- A general-check step whose tier update fixes VeryHigh keeps VeryHigh. -/
lemma gstep_pres {c : Prop} [Decidable c] {f : RiskTier → RiskTier} {L : List String}
    {s : RiskTier × List String} (hf : f RiskTier.veryHigh = RiskTier.veryHigh)
    (h : s.1 = RiskTier.veryHigh) : (gstep c f L s).1 = RiskTier.veryHigh := by
  unfold gstep
  split
  · show f s.1 = RiskTier.veryHigh
    rw [h]
    exact hf
  · exact h

/-- A force-to-VeryHigh step whose condition holds yields VeryHigh. -/
lemma gstep_force {c : Prop} [Decidable c] {L : List String}
    {s : RiskTier × List String} (hc : c) :
    (gstep c (fun _ => RiskTier.veryHigh) L s).1 = RiskTier.veryHigh := by
  unfold gstep
  rw [if_pos hc]

/-- A general-check step never removes an accumulated reason. -/
lemma gstep_mem {c : Prop} [Decidable c] {f : RiskTier → RiskTier} {L : List String}
    {s : RiskTier × List String} {x : String} (h : x ∈ s.2) :
    x ∈ (gstep c f L s).2 := by
  unfold gstep
  split
  · exact List.mem_append_left _ h
  · exact h

/-- A general-check step whose condition holds appends its reasons. -/
lemma gstep_mem_new {c : Prop} [Decidable c] {f : RiskTier → RiskTier} {L : List String}
    {s : RiskTier × List String} {x : String} (hc : c) (h : x ∈ L) :
    x ∈ (gstep c f L s).2 := by
  unfold gstep
  rw [if_pos hc]
  exact List.mem_append_right _ h

lemma gc1_pres (b : BuyerData) {s : RiskTier × List String}
    (h : s.1 = RiskTier.veryHigh) : (gc1 b s).1 = RiskTier.veryHigh := gstep_pres rfl h

lemma gc2_pres (b : BuyerData) {s : RiskTier × List String}
    (h : s.1 = RiskTier.veryHigh) : (gc2 b s).1 = RiskTier.veryHigh := gstep_pres rfl h

lemma gc3_pres (b : BuyerData) {s : RiskTier × List String}
    (h : s.1 = RiskTier.veryHigh) : (gc3 b s).1 = RiskTier.veryHigh := gstep_pres rfl h

lemma gc4_pres (b : BuyerData) {s : RiskTier × List String}
    (h : s.1 = RiskTier.veryHigh) : (gc4 b s).1 = RiskTier.veryHigh := gstep_pres rfl h

lemma gc5_pres (b : BuyerData) {s : RiskTier × List String}
    (h : s.1 = RiskTier.veryHigh) : (gc5 b s).1 = RiskTier.veryHigh := gstep_pres rfl h

lemma gc6_pres (b : BuyerData) {s : RiskTier × List String}
    (h : s.1 = RiskTier.veryHigh) : (gc6 b s).1 = RiskTier.veryHigh := gstep_pres rfl h

lemma gc7_pres (b : BuyerData) {s : RiskTier × List String}
    (h : s.1 = RiskTier.veryHigh) : (gc7 b s).1 = RiskTier.veryHigh := gstep_pres rfl h

lemma gc8_pres (b : BuyerData) {s : RiskTier × List String}
    (h : s.1 = RiskTier.veryHigh) : (gc8 b s).1 = RiskTier.veryHigh := gstep_pres rfl h

lemma gc9_pres (b : BuyerData) {s : RiskTier × List String}
    (h : s.1 = RiskTier.veryHigh) : (gc9 b s).1 = RiskTier.veryHigh := gstep_pres rfl h

lemma gc10_pres (b : BuyerData) {s : RiskTier × List String}
    (h : s.1 = RiskTier.veryHigh) : (gc10 b s).1 = RiskTier.veryHigh := gstep_pres rfl h

lemma gc1_force (b : BuyerData) {s : RiskTier × List String}
    (hc : b.PURCHASER_NAME_FROM_APS ≠ b.PURCHASER_NAME_FROM_ID) :
    (gc1 b s).1 = RiskTier.veryHigh := gstep_force hc

lemma gc2_force (b : BuyerData) {s : RiskTier × List String}
    (hc : b.PURCHASER_NAME_FROM_APS ≠ b.PURCHASER_NAME_FROM_HOUSESIGMA) :
    (gc2 b s).1 = RiskTier.veryHigh := gstep_force hc

lemma gc3_force (b : BuyerData) {s : RiskTier × List String}
    (hc : b.PURCHASER_NAME_FROM_ID ≠ b.PURCHASER_NAME_FROM_HOUSESIGMA) :
    (gc3 b s).1 = RiskTier.veryHigh := gstep_force hc

lemma gc4_force (b : BuyerData) {s : RiskTier × List String}
    (hc : b.PURCHASER_ADDRESS_FROM_ID ≠ b.PURCHASER_ADDRESS_FROM_APS) :
    (gc4 b s).1 = RiskTier.veryHigh := gstep_force hc

lemma gc5_force (b : BuyerData) {s : RiskTier × List String}
    (hc : b.PURCHASER_ADDRESS_FROM_APS ∉ b.PURCHASER_ADDRESS_LIST_FROM_LANDREGISTRY) :
    (gc5 b s).1 = RiskTier.veryHigh := gstep_force hc

lemma gc2_mem_new (b : BuyerData) {s : RiskTier × List String} {x : String}
    (hc : b.PURCHASER_NAME_FROM_APS ≠ b.PURCHASER_NAME_FROM_HOUSESIGMA)
    (h : x ∈ ["Name mismatch between APS and HOUSESIGMA"]) :
    x ∈ (gc2 b s).2 := gstep_mem_new hc h

lemma gc3_mem_new (b : BuyerData) {s : RiskTier × List String} {x : String}
    (hc : b.PURCHASER_NAME_FROM_ID ≠ b.PURCHASER_NAME_FROM_HOUSESIGMA)
    (h : x ∈ ["Name mismatch between ID and HOUSESIGMA"]) :
    x ∈ (gc3 b s).2 := gstep_mem_new hc h

lemma gc3_mem (b : BuyerData) {s : RiskTier × List String} {x : String}
    (h : x ∈ s.2) : x ∈ (gc3 b s).2 := gstep_mem h

lemma gc4_mem (b : BuyerData) {s : RiskTier × List String} {x : String}
    (h : x ∈ s.2) : x ∈ (gc4 b s).2 := gstep_mem h

lemma gc5_mem (b : BuyerData) {s : RiskTier × List String} {x : String}
    (h : x ∈ s.2) : x ∈ (gc5 b s).2 := gstep_mem h

lemma gc6_mem (b : BuyerData) {s : RiskTier × List String} {x : String}
    (h : x ∈ s.2) : x ∈ (gc6 b s).2 := gstep_mem h

lemma gc7_mem (b : BuyerData) {s : RiskTier × List String} {x : String}
    (h : x ∈ s.2) : x ∈ (gc7 b s).2 := gstep_mem h

lemma gc8_mem (b : BuyerData) {s : RiskTier × List String} {x : String}
    (h : x ∈ s.2) : x ∈ (gc8 b s).2 := gstep_mem h

lemma gc9_mem (b : BuyerData) {s : RiskTier × List String} {x : String}
    (h : x ∈ s.2) : x ∈ (gc9 b s).2 := gstep_mem h

lemma gc10_mem (b : BuyerData) {s : RiskTier × List String} {x : String}
    (h : x ∈ s.2) : x ∈ (gc10 b s).2 := gstep_mem h

/-- Any successful verdict carries the tier and reasons produced by the
general rule pass on some branch tier. -/
lemma assess_ok_shape (b : BuyerData) (v : Verdict)
    (hv : assess_buyer_risk b = Except.ok v) :
    ∃ r0 br, v.risk_level = (apply_general_checks b r0).1 ∧
      v.reasons = br ++ (apply_general_checks b r0).2 := by
  unfold assess_buyer_risk at hv
  split at hv
  · exact absurd hv (by simp)
  · rename_i risk0 actions branch_reasons heq
    dsimp only at hv
    split at hv
    · exact absurd hv (by simp)
    · rename_i factors
      injection hv with hv
      subst hv
      exact ⟨risk0, branch_reasons, rfl, rfl⟩

/-- C2: if any of the five mismatch conditions holds (agreement vs ID name,
agreement vs listing-service name, ID vs listing-service name, ID vs
agreement address, or agreement address not in the land-registry list), the
general rule pass returns VeryHigh for every incoming branch tier, and hence
every successful verdict has final tier VeryHigh. -/
theorem mismatch_forces_very_high (b : BuyerData) (t : RiskTier)
    (h : b.PURCHASER_NAME_FROM_APS ≠ b.PURCHASER_NAME_FROM_ID ∨
         b.PURCHASER_NAME_FROM_APS ≠ b.PURCHASER_NAME_FROM_HOUSESIGMA ∨
         b.PURCHASER_NAME_FROM_ID ≠ b.PURCHASER_NAME_FROM_HOUSESIGMA ∨
         b.PURCHASER_ADDRESS_FROM_ID ≠ b.PURCHASER_ADDRESS_FROM_APS ∨
         b.PURCHASER_ADDRESS_FROM_APS ∉ b.PURCHASER_ADDRESS_LIST_FROM_LANDREGISTRY) :
    (apply_general_checks b t).1 = RiskTier.veryHigh ∧
    ∀ v, assess_buyer_risk b = Except.ok v → v.risk_level = RiskTier.veryHigh := by
  have key : ∀ r : RiskTier, (apply_general_checks b r).1 = RiskTier.veryHigh := by
    intro r
    rcases h with h1 | h1 | h1 | h1 | h1
    · exact gc10_pres b (gc9_pres b (gc8_pres b (gc7_pres b (gc6_pres b (gc5_pres b
        (gc4_pres b (gc3_pres b (gc2_pres b (gc1_force b h1)))))))))
    · exact gc10_pres b (gc9_pres b (gc8_pres b (gc7_pres b (gc6_pres b (gc5_pres b
        (gc4_pres b (gc3_pres b (gc2_force b h1))))))))
    · exact gc10_pres b (gc9_pres b (gc8_pres b (gc7_pres b (gc6_pres b (gc5_pres b
        (gc4_pres b (gc3_force b h1)))))))
    · exact gc10_pres b (gc9_pres b (gc8_pres b (gc7_pres b (gc6_pres b (gc5_pres b
        (gc4_force b h1))))))
    · exact gc10_pres b (gc9_pres b (gc8_pres b (gc7_pres b (gc6_pres b
        (gc5_force b h1)))))
  refine ⟨key t, fun v hv => ?_⟩
  obtain ⟨r0, br, hrl, hrs⟩ := assess_ok_shape b v hv
  rw [hrl]
  exact key r0

/-- Witness for C2: an agreement/ID name mismatch at a concrete profile. -/
theorem mismatch_forces_very_high_witness :
    (apply_general_checks bMis RiskTier.noRisk).1 = RiskTier.veryHigh :=
  (mismatch_forces_very_high bMis RiskTier.noRisk (Or.inl (by decide))).1

/-- C6: leaving the optional listing-service name at its empty default while
the agreement and ID names are equal and non-empty makes the general rule
pass force VeryHigh and append both HOUSESIGMA mismatch reasons, so every
successful verdict of such a profile is VeryHigh with both reasons. -/
theorem housesigma_default_forces_very_high (b : BuyerData) (t : RiskTier)
    (hH : b.PURCHASER_NAME_FROM_HOUSESIGMA = "")
    (hEq : b.PURCHASER_NAME_FROM_APS = b.PURCHASER_NAME_FROM_ID)
    (hNe : b.PURCHASER_NAME_FROM_APS ≠ "") :
    (apply_general_checks b t).1 = RiskTier.veryHigh ∧
    "Name mismatch between APS and HOUSESIGMA" ∈ (apply_general_checks b t).2 ∧
    "Name mismatch between ID and HOUSESIGMA" ∈ (apply_general_checks b t).2 ∧
    ∀ v, assess_buyer_risk b = Except.ok v →
      v.risk_level = RiskTier.veryHigh ∧
      "Name mismatch between APS and HOUSESIGMA" ∈ v.reasons ∧
      "Name mismatch between ID and HOUSESIGMA" ∈ v.reasons := by
  have c2 : b.PURCHASER_NAME_FROM_APS ≠ b.PURCHASER_NAME_FROM_HOUSESIGMA := by
    rw [hH]
    exact hNe
  have c3 : b.PURCHASER_NAME_FROM_ID ≠ b.PURCHASER_NAME_FROM_HOUSESIGMA := by
    rw [hH, ← hEq]
    exact hNe
  have key : ∀ r : RiskTier, (apply_general_checks b r).1 = RiskTier.veryHigh :=
    fun r => gc10_pres b (gc9_pres b (gc8_pres b (gc7_pres b (gc6_pres b (gc5_pres b
      (gc4_pres b (gc3_pres b (gc2_force b c2))))))))
  have kmem2 : ∀ r : RiskTier,
      "Name mismatch between APS and HOUSESIGMA" ∈ (apply_general_checks b r).2 :=
    fun r => gc10_mem b (gc9_mem b (gc8_mem b (gc7_mem b (gc6_mem b (gc5_mem b
      (gc4_mem b (gc3_mem b (gc2_mem_new b c2 (by simp)))))))))
  have kmem3 : ∀ r : RiskTier,
      "Name mismatch between ID and HOUSESIGMA" ∈ (apply_general_checks b r).2 :=
    fun r => gc10_mem b (gc9_mem b (gc8_mem b (gc7_mem b (gc6_mem b (gc5_mem b
      (gc4_mem b (gc3_mem_new b c3 (by simp))))))))
  refine ⟨key t, kmem2 t, kmem3 t, fun v hv => ?_⟩
  obtain ⟨r0, br, hrl, hrs⟩ := assess_ok_shape b v hv
  refine ⟨?_, ?_, ?_⟩
  · rw [hrl]
    exact key r0
  · rw [hrs]
    exact List.mem_append_right _ (kmem2 r0)
  · rw [hrs]
    exact List.mem_append_right _ (kmem3 r0)

/-- Witness for C6 at a concrete profile with the default listing name. -/
theorem housesigma_default_forces_very_high_witness :
    (apply_general_checks bHS RiskTier.noRisk).1 = RiskTier.veryHigh ∧
    "Name mismatch between APS and HOUSESIGMA" ∈ (apply_general_checks bHS RiskTier.noRisk).2 ∧
    "Name mismatch between ID and HOUSESIGMA" ∈ (apply_general_checks bHS RiskTier.noRisk).2 := by
  have h := housesigma_default_forces_very_high bHS RiskTier.noRisk rfl rfl (by decide)
  exact ⟨h.1, h.2.1, h.2.2.1⟩

/-- C9: in the general rule pass, a truthy age below 30 or above 60 escalates
the tier by one step and appends the interpolated age reason; an age in
[30, 60] leaves the state untouched. -/
theorem age_rule_general_pass (b : BuyerData) (s : RiskTier × List String) :
    ((b.PURCHASER_AGE_FROM_ID ≠ 0 ∧
      (b.PURCHASER_AGE_FROM_ID < 30 ∨ b.PURCHASER_AGE_FROM_ID > 60)) →
      gc9 b s = (increase_risk s.1 1,
        s.2 ++ ["Age risk (" ++ toString b.PURCHASER_AGE_FROM_ID ++ " years)"]))
    ∧ ((30 ≤ b.PURCHASER_AGE_FROM_ID ∧ b.PURCHASER_AGE_FROM_ID ≤ 60) →
      gc9 b s = s) := by
  constructor
  · intro hc
    unfold gc9 gstep
    rw [if_pos hc]
  · intro hc
    unfold gc9 gstep
    rw [if_neg (by rintro ⟨h0, h1 | h1⟩ <;> omega)]

/-- Witness for C9 at age 25. -/
theorem age_rule_general_pass_witness :
    gc9 bYoung (RiskTier.medium, []) = (RiskTier.high, ["Age risk (25 years)"]) :=
  ((age_rule_general_pass bYoung (RiskTier.medium, [])).1 (by decide)).trans rfl

/-- Under the first band, the code's else-if chain on the deposit percentage
agrees with the spec's interval phrasing. -/
lemma band1_eq (pct : ℚ) (h : ¬ pct > 25) :
    (if pct > 15 then RiskTier.medium else RiskTier.noRisk) =
    (if 15 < pct ∧ pct ≤ 25 then RiskTier.medium else RiskTier.noRisk) := by
  by_cases h15 : pct > 15
  · rw [if_pos h15, if_pos ⟨h15, by linarith⟩]
  · rw [if_neg h15, if_neg (fun hx => h15 hx.1)]

/-- The code's non-owner price-tier table computes the spec table. -/
lemma table_tier_eq (b : BuyerData) :
    non_owner_table_tier b =
    specNonOwnerTier b.PROPERTY_PRICE b.PURCHASER_DEPOSIT_PAID_FROM_APS := by
  simp only [non_owner_table_tier, specNonOwnerTier, non_owner_deposit_pct]
  refine if_ctx_congr Iff.rfl (fun h8 => ?_) (fun h8 => ?_)
  · exact if_ctx_congr Iff.rfl (fun _ => rfl) (fun h25 => band1_eq _ h25)
  · refine if_congr Iff.rfl rfl ?_
    by_cases h7 : 1000000 < b.PROPERTY_PRICE ∧ b.PROPERTY_PRICE ≤ 1500000
    · rw [if_pos h7, if_pos (Or.inl h7)]
    · by_cases hg : b.PROPERTY_PRICE > 1500000
      · rw [if_neg h7, if_pos hg, if_pos (Or.inr hg)]
      · rw [if_neg h7, if_neg hg, if_neg (by rintro (hx | hx) <;> [exact h7 hx; exact hg hx])]

/-- C3: in the non-owner branch with no high-risk override and no
related-party trigger, the returned tier is exactly the spec's price/deposit
table value; in particular price 700000 with deposit 200000 gives Low and
price 700000 with deposit 50000 gives NoRisk. -/
theorem non_owner_price_deposit_table (b : BuyerData)
    (hov : has_high_risk_overrides b = false)
    (hrel : has_related_parties_not_on_aps b = Except.ok false) :
    assess_non_homeowner b = Except.ok
      (specNonOwnerTier b.PROPERTY_PRICE b.PURCHASER_DEPOSIT_PAID_FROM_APS,
       (if b.PURCHASER_AGE_FROM_ID < 30 ∧ is_buyer_on_primary_residence_title b = false
        then ["Request to add co-signers"] else []) ++ ["Request 25% downpayment proof"])
    ∧ specNonOwnerTier 700000 200000 = RiskTier.low
    ∧ specNonOwnerTier 700000 50000 = RiskTier.noRisk := by
  refine ⟨?_, by norm_num [specNonOwnerTier], by norm_num [specNonOwnerTier]⟩
  unfold assess_non_homeowner
  rw [hrel]
  simp [hov, table_tier_eq b]

/-- Witness for C3: the concrete non-owner profile with price 700000 and
deposit 200000 comes out Low. -/
theorem non_owner_price_deposit_table_witness :
    assess_non_homeowner bNW = Except.ok (RiskTier.low, ["Request 25% downpayment proof"]) := by
  have h := (non_owner_price_deposit_table bNW (by decide) rfl).1
  rw [h]
  norm_num [specNonOwnerTier, bNW, bBase, is_buyer_on_primary_residence_title]

/-- The code's guarded equity percentage equals the spec's phrasing. -/
lemma owner_pct_eq (b : BuyerData) :
    owner_equity_pct b =
    (if b.PROPERTY_PRICE ≤ 0 then 0
     else b.PRIMARY_RESIDENCE_EQUITY / b.PROPERTY_PRICE * 100) := by
  unfold owner_equity_pct
  rcases le_or_lt b.PROPERTY_PRICE 0 with h | h
  · rw [if_neg (not_lt.mpr h), if_pos h]
  · rw [if_pos h, if_neg (not_le.mpr h)]

/-- The code's owner-branch tier computes the spec's value-ratio plus equity
rule. -/
lemma owner_tier_eq (b : BuyerData) :
    owner_equity_tier b =
    specOwnerTier b.PROPERTY_PRICE b.PRIMARY_RESIDENCE_VALUE_FROM_AVM
      b.PRIMARY_RESIDENCE_EQUITY := by
  simp only [owner_equity_tier, specOwnerTier, owner_value_tier, ← owner_pct_eq b]

/-- The code's owner-branch equity reasons compute the spec's reasons. -/
lemma owner_reasons_eq (b : BuyerData) :
    owner_equity_reasons b =
    specOwnerReasons b.PROPERTY_PRICE b.PRIMARY_RESIDENCE_EQUITY := by
  simp only [owner_equity_reasons, specOwnerReasons, ← owner_pct_eq b]

/-- C4: in the owner branch with no related-party and no missing-co-owner
trigger, the verdict tier is the value-ratio rule overwritten by the equity
rule exactly as the spec states, with the matching equity reason; in
particular price 800000, home value 650000, equity 50000 gives High with
reason list ["Low equity (5-15%)"]. -/
theorem owner_branch_value_equity (b : BuyerData)
    (hrel : has_related_parties_not_on_aps b = Except.ok false)
    (hmiss : is_missing_coowner_on_aps b = false) :
    assess_homeowner b = Except.ok
      (specOwnerTier b.PROPERTY_PRICE b.PRIMARY_RESIDENCE_VALUE_FROM_AVM
         b.PRIMARY_RESIDENCE_EQUITY,
       ["Verify property ownership and equity"],
       specOwnerReasons b.PROPERTY_PRICE b.PRIMARY_RESIDENCE_EQUITY)
    ∧ specOwnerTier 800000 650000 50000 = RiskTier.high
    ∧ specOwnerReasons 800000 50000 = ["Low equity (5-15%)"] := by
  refine ⟨?_,
    by norm_num [specOwnerTier, show increase_risk RiskTier.low 2 = RiskTier.high from rfl],
    by norm_num [specOwnerReasons]⟩
  unfold assess_homeowner
  rw [hrel]
  simp [hmiss, ← owner_tier_eq b, ← owner_reasons_eq b]

/-- Witness for C4 at the concrete owner profile. -/
theorem owner_branch_value_equity_witness :
    assess_homeowner bOwn = Except.ok
      (RiskTier.high, ["Verify property ownership and equity"], ["Low equity (5-15%)"]) := by
  have h := (owner_branch_value_equity bOwn rfl rfl).1
  rw [h]
  norm_num [specOwnerTier, specOwnerReasons, bOwn, bBase,
    show increase_risk RiskTier.low 2 = RiskTier.high from rfl]

/-- Chaining one escalation step and then two more equals three steps. -/
lemma increase_one_two (t : RiskTier) :
    increase_risk (increase_risk t 1) 2 = increase_risk t 3 := by
  cases t <;> rfl

/-- Chaining three escalation steps and then two more equals five steps. -/
lemma increase_three_two (t : RiskTier) :
    increase_risk (increase_risk t 3) 2 = increase_risk t 5 := by
  cases t <;> rfl

/-- C8: in the owner branch, a triggered related-party predicate escalates
the equity-stage tier by 1 and then unconditionally by 2 more (3 steps in
total, independent of the price), appends the reason "Same last name
different addresses." and the action "Add related parties to APS"; only the
separate missing-co-owner rule can add 2 further steps. -/
theorem owner_related_party_triple_escalation (b : BuyerData)
    (hrel : has_related_parties_not_on_aps b = Except.ok true) :
    assess_homeowner b = Except.ok
      ((if is_missing_coowner_on_aps b
        then increase_risk (owner_equity_tier b) 5
        else increase_risk (owner_equity_tier b) 3),
       ["Add related parties to APS", "Verify property ownership and equity"],
       owner_equity_reasons b ++ ["Same last name different addresses."] ++
         (if is_missing_coowner_on_aps b then ["Missing co-owner on APS"] else [])) := by
  unfold assess_homeowner
  rw [hrel]
  cases hm : is_missing_coowner_on_aps b
  · simp [hm, increase_one_two]
  · simp [hm, increase_one_two, increase_three_two]

/-- Witness for C8: a title holder "Bob Smith" sharing the buyer's last name
but absent from the agreement escalates Low-after-equity High by 3 and the
missing-co-owner rule by 2 more, saturating at VeryHigh. -/
theorem owner_related_party_triple_escalation_witness :
    assess_homeowner bRel = Except.ok
      (RiskTier.veryHigh,
       ["Add related parties to APS", "Verify property ownership and equity"],
       ["Low equity (5-15%)", "Same last name different addresses.",
        "Missing co-owner on APS"]) := by
  have hoe : owner_equity_tier bRel = RiskTier.high := by
    norm_num [owner_equity_tier, owner_equity_pct, owner_value_tier, bRel, bBase,
      show increase_risk RiskTier.low 2 = RiskTier.high from rfl]
  have hor : owner_equity_reasons bRel = ["Low equity (5-15%)"] := by
    norm_num [owner_equity_reasons, owner_equity_pct, bRel, bBase]
  have h := owner_related_party_triple_escalation bRel rfl
  rw [h, hoe, hor, show is_missing_coowner_on_aps bRel = true from rfl]
  rfl

/-- C7: an empty agreement name makes the related-party predicate evaluate
`"".split()[-1]`, raising IndexError; both branch evaluators call the
predicate unconditionally, so the whole assessment aborts instead of
returning a verdict. -/
theorem empty_aps_name_aborts (b : BuyerData)
    (h : b.PURCHASER_NAME_FROM_APS = "") :
    has_related_parties_not_on_aps b = Except.error PyError.indexError ∧
    assess_non_homeowner b = Except.error PyError.indexError ∧
    assess_homeowner b = Except.error PyError.indexError ∧
    assess_buyer_risk b = Except.error PyError.indexError := by
  have hr : has_related_parties_not_on_aps b = Except.error PyError.indexError := by
    unfold has_related_parties_not_on_aps
    rw [h]
    rfl
  have h2 : assess_non_homeowner b = Except.error PyError.indexError := by
    unfold assess_non_homeowner
    rw [hr]
  have h3 : assess_homeowner b = Except.error PyError.indexError := by
    unfold assess_homeowner
    rw [hr]
  refine ⟨hr, h2, h3, ?_⟩
  unfold assess_buyer_risk
  cases hc : check_ownership b
  · rw [h2]
    rfl
  · rw [h3]
    rfl

/-- Witness for C7 at a concrete profile with an empty agreement name. -/
theorem empty_aps_name_aborts_witness :
    assess_buyer_risk bEmpty = Except.error PyError.indexError :=
  (empty_aps_name_aborts bEmpty rfl).2.2.2

/-- C5 counterexample: the home-value-ratio division of the Risk Factor
Reporter is itself unguarded — at a zero price it raises a ZeroDivisionError
instead of being "guarded by a zero/positive check" with a fallback to 0, and
the raised error is the plain division-by-zero error rather than a designated
"invalid input: zero price" condition. -/
theorem ratio_division_unguarded_cex :
    home_value_factor bZero = Except.error PyError.zeroDivisionError := rfl

/-- C5 (amended): with a subject price of exactly 0 the risk-factor
computation raises a ZeroDivisionError (no silent fallback) — surfacing from
the unguarded home-value-ratio division, the deposit-percentage division
being equally unguarded — while the divisions inside the two branch
evaluators are guarded by a price > 0 check and fall back to 0. -/
theorem zero_price_raises_division_error (b : BuyerData)
    (h : b.PROPERTY_PRICE = 0) :
    get_risk_factors b = Except.error PyError.zeroDivisionError ∧
    home_value_factor b = Except.error PyError.zeroDivisionError ∧
    deposit_factor b = Except.error PyError.zeroDivisionError ∧
    non_owner_deposit_pct b = 0 ∧
    owner_equity_pct b = 0 := by
  have hv : home_value_factor b = Except.error PyError.zeroDivisionError := by
    unfold home_value_factor pyDiv
    rw [h, if_pos rfl]
  have hd : deposit_factor b = Except.error PyError.zeroDivisionError := by
    unfold deposit_factor pyDiv
    rw [h, if_pos rfl]
  refine ⟨?_, hv, hd, ?_, ?_⟩
  · unfold get_risk_factors
    rw [hv]
  · unfold non_owner_deposit_pct
    rw [h, if_neg (lt_irrefl 0)]
  · unfold owner_equity_pct
    rw [h, if_neg (lt_irrefl 0)]

/-- Witness for C5 (amended) at the concrete zero-price profile. -/
theorem zero_price_raises_division_error_witness :
    get_risk_factors bZero = Except.error PyError.zeroDivisionError :=
  (zero_price_raises_division_error bZero rfl).1

/-- With neither owner-branch predicate triggered, the owner branch returns
the equity-stage tier and reasons unchanged. -/
lemma assess_homeowner_no_triggers (b : BuyerData)
    (hrel : has_related_parties_not_on_aps b = Except.ok false)
    (hmiss : is_missing_coowner_on_aps b = false) :
    assess_homeowner b = Except.ok
      (owner_equity_tier b, ["Verify property ownership and equity"],
       owner_equity_reasons b) := by
  unfold assess_homeowner
  rw [hrel]
  simp [hmiss]

/-- A terminated fractional part yields no further digits, whatever the
remaining fuel. -/
lemma fracDigits_zero (fuel : Nat) : fracDigits fuel 0 = [] := by
  cases fuel
  · rfl
  · unfold fracDigits
    rw [if_pos rfl]

/-- C10: the reference engine stores the reasons of a verdict on the shared
engine-instance field `self.REASONS` rather than keeping them local to the
call: an evaluation overwrites whatever state a previous call left, and the
verdict's reasons are exactly the mutated instance field.  This refutes the
claim that reasons are never stored on shared engine state (the spec itself
mandates the fix for the reimplementation). -/
theorem reasons_live_on_instance_state :
    assess_buyer_risk_instance ⟨["stale reason"]⟩ bOwn = Except.ok
      (⟨["Low equity (5-15%)"]⟩,
       ⟨RiskTier.high, ["Verify property ownership and equity"],
        ["Existing property owner", "Home value to price ratio: 81.2%", "Deposit:25.0"],
        ["Low equity (5-15%)"]⟩) ∧
    (⟨["Low equity (5-15%)"]⟩ : AssessorState) ≠ ⟨["stale reason"]⟩ := by
  have hoe : owner_equity_tier bOwn = RiskTier.high := by
    norm_num [owner_equity_tier, owner_equity_pct, owner_value_tier, bOwn, bBase,
      show increase_risk RiskTier.low 2 = RiskTier.high from rfl]
  have hor : owner_equity_reasons bOwn = ["Low equity (5-15%)"] := by
    norm_num [owner_equity_reasons, owner_equity_pct, bOwn, bBase]
  have hhz : assess_homeowner bOwn = Except.ok
      (RiskTier.high, ["Verify property ownership and equity"], ["Low equity (5-15%)"]) := by
    rw [assess_homeowner_no_triggers bOwn rfl rfl, hoe, hor]
  have hgc : apply_general_checks bOwn RiskTier.high = (RiskTier.high, []) := rfl
  have hdiv1 : pyDiv (650000 : ℚ) 800000 = Except.ok (13 / 16) := by
    unfold pyDiv
    rw [if_neg (by norm_num)]
    norm_num
  have hfmt : fmtPct1 ((13 : ℚ) / 16) = "81.2%" := by
    unfold fmtPct1 roundHalfEven
    norm_num
    rfl
  have h2 : home_value_factor bOwn = Except.ok "Home value to price ratio: 81.2%" := by
    unfold home_value_factor
    rw [show bOwn.PRIMARY_RESIDENCE_VALUE_FROM_AVM = (650000 : ℚ) from rfl,
        show bOwn.PROPERTY_PRICE = (800000 : ℚ) from rfl, hdiv1]
    show Except.ok ("Home value to price ratio: " ++ fmtPct1 ((13 : ℚ) / 16)) = _
    rw [hfmt]
    rfl
  have hdiv2 : pyDiv (200000 : ℚ) 800000 = Except.ok (1 / 4) := by
    unfold pyDiv
    rw [if_neg (by norm_num)]
    norm_num
  have hps : pyFloatStr (25 : ℚ) = "25.0" := by
    unfold pyFloatStr
    norm_num [fracDigits_zero]
    rfl
  have h3 : deposit_factor bOwn = Except.ok "Deposit:25.0" := by
    unfold deposit_factor
    rw [show bOwn.PURCHASER_DEPOSIT_PAID_FROM_APS = (200000 : ℚ) from rfl,
        show bOwn.PROPERTY_PRICE = (800000 : ℚ) from rfl, hdiv2]
    show Except.ok ("Deposit:" ++ pyFloatStr ((1 : ℚ) / 4 * 100)) = _
    rw [show (1 : ℚ) / 4 * 100 = 25 from by norm_num, hps]
    rfl
  have hgf : get_risk_factors bOwn = Except.ok
      ["Existing property owner", "Home value to price ratio: 81.2%", "Deposit:25.0"] := by
    unfold get_risk_factors
    rw [h2, h3]
    rfl
  constructor
  · simp only [assess_buyer_risk_instance,
      show (if check_ownership bOwn = true then assess_homeowner bOwn
            else Except.map (fun p => (p.1, p.2, ([] : List String)))
              (assess_non_homeowner bOwn)) = assess_homeowner bOwn from rfl,
      hhz, hgc, hgf, List.append_nil]
    rfl
  · decide
